import Mathlib

/-!
# Verification of the ev-dashboard aggregation endpoint

A shallow embedding of `src/server.js` (and its variant `src/unnamed/part_000`):
an Express server whose single endpoint `GET /api/data` runs five read-only
SQL queries against the tables `ev_registrations` and `charging_stations`,
assembles a JSON envelope, and returns it (HTTP 500 with a fixed plain-text
message when any query fails).

Tables are lists of rows; the five SQL statements become Lean functions on
those lists.  SQL `TRIM` strips space characters from both ends, `UPPER`
uppercases ASCII letters, `TO_CHAR(d, YYYY-MM)` zero-pads year and month,
`EXTRACT(YEAR ...)::text` is decimal notation of the year.  `DISTINCT`
with `ORDER BY` on the projected value is deduplication followed by sorting;
`GROUP BY` with `COUNT(*)` is one output row per distinct key carrying the
number of source rows with that key.  `ORDER BY month` of the chart query
constrains output order only up to rows with equal month, so the set of
result orderings the SQL engine may return is modelled by a relation
(`validChartOutput`) alongside one deterministic representative
(`chartQuery`).
-/

namespace EvDashboard

/-- A calendar date, the value of the `date_reg` column. -/
structure Date where
  year : Nat
  month : Nat
  day : Nat
deriving DecidableEq, Repr

/-- A row of `ev_registrations`: `state` and `brand` are nullable free text,
`date_reg` a nullable date, `fuel` a text column. -/
structure Registration where
  state : Option String
  brand : Option String
  date_reg : Option Date
  fuel : String
deriving DecidableEq, Repr

/-- A row of `charging_stations`; the endpoint returns these verbatim, so the
column values are opaque text here. -/
structure Station where
  name : String
  latitude : String
  longitude : String
  state : String
deriving DecidableEq, Repr

/-- SQL `TRIM`: strip space characters from both ends of a string. -/
def sqlTrim (s : String) : String :=
  ⟨((s.data.dropWhile (· == ' ')).reverse.dropWhile (· == ' ')).reverse⟩

/-- SQL `UPPER`: uppercase every character (ASCII). -/
def sqlUpper (s : String) : String :=
  ⟨s.data.map Char.toUpper⟩

/-- The condition `fuel IN (electric, hybrid_petrol, hybrid_diesel)` shared by
the chart, brand, state and year queries. -/
def fuelOK (f : String) : Bool :=
  f == "electric" || f == "hybrid_petrol" || f == "hybrid_diesel"

/-- The condition `state IS NOT NULL AND TRIM(state) <> two quotes`. -/
def stateOK (r : Registration) : Bool :=
  match r.state with
  | some s => sqlTrim s != ""
  | none => false

/-- The condition `brand IS NOT NULL AND TRIM(brand) <> two quotes`. -/
def brandOK (r : Registration) : Bool :=
  match r.brand with
  | some b => sqlTrim b != ""
  | none => false

/-- The full WHERE clause of `chartQuery`: state and brand non-null and
non-blank after trim, `date_reg` non-null, fuel in the fixed set. -/
def chartPred (r : Registration) : Bool :=
  stateOK r && brandOK r && r.date_reg.isSome && fuelOK r.fuel

/-- The WHERE clause of `brandQuery`: only the brand and fuel conditions. -/
def brandPred (r : Registration) : Bool :=
  brandOK r && fuelOK r.fuel

/-- The WHERE clause of `stateQuery`: only the state and fuel conditions. -/
def statePred (r : Registration) : Bool :=
  stateOK r && fuelOK r.fuel

/-- The WHERE clause of `yearQuery`: only the `date_reg` and fuel
conditions. -/
def yearPred (r : Registration) : Bool :=
  r.date_reg.isSome && fuelOK r.fuel

/-- The projection `UPPER(TRIM(state))`.  The default for the null case is
irrelevant: every query applying this projection filters null states out
first or ignores the result. -/
def normState (r : Registration) : String :=
  sqlUpper (sqlTrim (r.state.getD ""))

/-- The projection `UPPER(TRIM(brand))`. -/
def normBrand (r : Registration) : String :=
  sqlUpper (sqlTrim (r.brand.getD ""))

/-- Left-pad the decimal notation of `n` with zeros to width `w`. -/
def padZeros (w : Nat) (n : Nat) : String :=
  ⟨List.replicate (w - (toString n).length) '0' ++ (toString n).data⟩

/-- The projection `TO_CHAR(date_reg, YYYY-MM)`: zero-padded year, a dash,
zero-padded two-digit month. -/
def toCharYYYYMM (d : Date) : String :=
  padZeros 4 d.year ++ "-" ++ padZeros 2 d.month

/-- The month string of a registration (applied only to rows whose
`date_reg` is non-null). -/
def monthOf (r : Registration) : String :=
  toCharYYYYMM (r.date_reg.getD ⟨0, 0, 0⟩)

/-- The projection `EXTRACT(YEAR FROM date_reg)::text`. -/
def yearOf (r : Registration) : String :=
  toString (r.date_reg.getD ⟨0, 0, 0⟩).year

/-- Codepoint-lexicographic comparison of character lists: the model of the
text ordering (C collation) used by ORDER BY on text values. -/
def lexLE : List Char → List Char → Bool
  | [], _ => true
  | _ :: _, [] => false
  | a :: as, b :: bs =>
    if a < b then true
    else if b < a then false
    else lexLE as bs

/-- Text ordering of strings: ORDER BY comparison of two text values. -/
def sLE (a b : String) : Prop :=
  lexLE a.data b.data = true

instance : DecidableRel sLE :=
  fun a b => inferInstanceAs (Decidable (lexLE a.data b.data = true))

/-- Strict text ordering: below and distinct. -/
def sLT (a b : String) : Prop :=
  sLE a b ∧ a ≠ b

/-- One row of the chart query result. -/
structure ChartRow where
  state : String
  brand : String
  month : String
  registrations : Nat
deriving DecidableEq, Repr

/-- The GROUP BY key of `chartQuery`: normalized state, normalized brand,
month string. -/
def chartKey (r : Registration) : String × String × String :=
  (normState r, normBrand r, monthOf r)

/-- The keys of all qualifying registrations, with multiplicity. -/
def chartKeys (db : List Registration) : List (String × String × String) :=
  (db.filter chartPred).map chartKey

/-- The grouped result of `chartQuery` before ORDER BY: one row per distinct
key among qualifying registrations, carrying its group size `COUNT(*)`. -/
def chartGroups (db : List Registration) : List ChartRow :=
  (chartKeys db).dedup.map fun k =>
    ⟨k.1, k.2.1, k.2.2, (chartKeys db).count k⟩

/-- Row comparison used by `ORDER BY month` of the chart query. -/
def monthLE (a b : ChartRow) : Prop :=
  sLE a.month b.month

instance : DecidableRel monthLE :=
  fun a b => inferInstanceAs (Decidable (sLE a.month b.month))

/-- Deterministic representative of the chart query result: grouped rows
ordered by month ascending (a stable sort). -/
def chartQuery (db : List Registration) : List ChartRow :=
  (chartGroups db).insertionSort monthLE

/-- `SELECT DISTINCT ... ORDER BY ...` over a projected column: deduplicate,
then sort ascending.  Sorting on the full projected value makes the result
order unique. -/
def distinctSorted (xs : List String) : List String :=
  xs.dedup.insertionSort sLE

/-- Result of `brandQuery`: distinct normalized brands of rows passing the
brand and fuel conditions, ascending. -/
def brandQuery (db : List Registration) : List String :=
  distinctSorted ((db.filter brandPred).map normBrand)

/-- Result of `stateQuery`: distinct normalized states of rows passing the
state and fuel conditions, ascending. -/
def stateQuery (db : List Registration) : List String :=
  distinctSorted ((db.filter statePred).map normState)

/-- Result of `yearQuery`: distinct registration years as text, over rows
passing the `date_reg` and fuel conditions, ascending. -/
def yearQuery (db : List Registration) : List String :=
  distinctSorted ((db.filter yearPred).map yearOf)

/-- Result of `stationQuery`: every `charging_stations` row, verbatim, in
store order. -/
def stationQuery (stations : List Station) : List Station :=
  stations

/-- The `filters` object of the response envelope. -/
structure Filters where
  brands : List String
  states : List String
  years : List String
deriving DecidableEq, Repr

/-- The JSON envelope sent by `res.json`. -/
structure Envelope where
  chartData : List ChartRow
  stationData : List Station
  filters : Filters
deriving DecidableEq, Repr

/-- An HTTP response body: a JSON envelope, or the plain text sent by
`res.status(500).send`. -/
inductive Body where
  | json : Envelope → Body
  | text : String → Body
deriving DecidableEq, Repr

/-- An HTTP response: status code and body. -/
structure Response where
  status : Nat
  body : Body
deriving DecidableEq, Repr

/-- The relational store the five queries read. -/
structure Store where
  ev_registrations : List Registration
  charging_stations : List Station
deriving DecidableEq, Repr

/-- A database error carried by a rejected query promise. -/
structure DbError where
  message : String
deriving DecidableEq, Repr

/-- Whether a settled query promise was rejected. -/
def failed {ρ : Type} : Except DbError ρ → Bool
  | .error _ => true
  | .ok _ => false

/-- `Promise.all` over the five query promises: resolves with the tuple of
results when every promise resolves, rejects when any rejects. -/
def promiseAll5 {α β γ δ ε : Type}
    (a : Except DbError α) (b : Except DbError β) (c : Except DbError γ)
    (d : Except DbError δ) (e : Except DbError ε) :
    Except DbError (α × β × γ × δ × ε) := do
  let ra ← a
  let rb ← b
  let rc ← c
  let rd ← d
  let re ← e
  pure (ra, rb, rc, rd, re)

/-- The fixed plain-text message of the 500 response. -/
def errorMessage : String :=
  "A critical error occurred while fetching data from the database."

/-- An incoming HTTP request as the Express handler receives it
(`req`): path, query parameters, headers, body. -/
structure Request where
  path : String
  queryParams : List (String × String)
  headers : List (String × String)
  body : String
deriving DecidableEq, Repr

/-- The `/api/data` handler body, given the request and the five settled
query outcomes: the `try` block awaits `Promise.all` and sends the JSON
envelope with status 200; the `catch` block sends status 500 with the
fixed message.  The handler receives `req` but its body never reads it. -/
def handleApiData (req : Request)
    (chartR : Except DbError (List ChartRow))
    (brandR : Except DbError (List String))
    (stateR : Except DbError (List String))
    (yearR : Except DbError (List String))
    (stationR : Except DbError (List Station)) : Response :=
  match promiseAll5 chartR brandR stateR yearR stationR with
  | .ok (c, b, s, y, st) => ⟨200, .json ⟨c, st, ⟨b, s, y⟩⟩⟩
  | .error _ => ⟨500, .text errorMessage⟩

/-- The response sent when all five queries resolve with their results
computed from the store. -/
def successResponse (st : Store) : Response :=
  ⟨200, .json
    ⟨chartQuery st.ev_registrations,
     stationQuery st.charging_stations,
     ⟨brandQuery st.ev_registrations,
      stateQuery st.ev_registrations,
      yearQuery st.ev_registrations⟩⟩⟩

/-- The result orderings the SQL engine may return for the chart query:
the grouped rows in any order consistent with `ORDER BY month` (rows with
equal month may come in any relative order). -/
def validChartOutput (db : List Registration) (out : List ChartRow) : Prop :=
  out.Perm (chartGroups db) ∧ out.Sorted monthLE

/-- The result orderings the SQL engine may return for a
`SELECT DISTINCT ... ORDER BY` query sorted on the full projected value. -/
def validDistinctOutput (xs : List String) (out : List String) : Prop :=
  out.Perm xs.dedup ∧ out.Sorted sLE

instance (db : List Registration) (out : List ChartRow) :
    Decidable (validChartOutput db out) :=
  inferInstanceAs (Decidable (out.Perm (chartGroups db) ∧ out.Sorted monthLE))

instance (xs out : List String) : Decidable (validDistinctOutput xs out) :=
  inferInstanceAs (Decidable (out.Perm xs.dedup ∧ out.Sorted sLE))

/-- Store for the C1 counterexample: one registration with a null state and a
null date but a qualifying brand and fuel. -/
def c1db : List Registration :=
  [⟨none, some "Tesla", none, "electric"⟩]

/-- Store of the spec's worked scenario (claim C4). -/
def c4db : List Registration :=
  [⟨some "ca ", some "Tesla", some ⟨2024, 3, 15⟩, "electric"⟩,
   ⟨some "CA", some "tesla", some ⟨2024, 3, 20⟩, "electric"⟩,
   ⟨some "TX", some "Ford", some ⟨2023, 11, 1⟩, "diesel"⟩]

/-- Store for the C8 counterexample: two qualifying registrations in the same
month with different states and brands. -/
def c8db : List Registration :=
  [⟨some "CA", some "TESLA", some ⟨2024, 3, 1⟩, "electric"⟩,
   ⟨some "TX", some "FORD", some ⟨2024, 3, 2⟩, "electric"⟩]

/-- One ordering of the C8 chart groups. -/
def c8outA : List ChartRow :=
  [⟨"CA", "TESLA", "2024-03", 1⟩, ⟨"TX", "FORD", "2024-03", 1⟩]

/-- The other ordering of the C8 chart groups. -/
def c8outB : List ChartRow :=
  [⟨"TX", "FORD", "2024-03", 1⟩, ⟨"CA", "TESLA", "2024-03", 1⟩]

/-! ## Properties of the text ordering -/

theorem lexLE_refl (l : List Char) : lexLE l l = true := by
  induction l with
  | nil => rfl
  | cons a as ih => simp [lexLE, ih]

theorem lexLE_total (l₁ l₂ : List Char) : lexLE l₁ l₂ = true ∨ lexLE l₂ l₁ = true := by
  induction l₁ generalizing l₂ with
  | nil => exact .inl rfl
  | cons a as ih =>
    cases l₂ with
    | nil => exact .inr rfl
    | cons b bs =>
      rcases lt_trichotomy a b with h | h | h
      · left
        simp [lexLE, h]
      · subst h
        simpa [lexLE] using ih bs
      · right
        simp [lexLE, h]

theorem lexLE_trans {l₁ l₂ l₃ : List Char} (h₁ : lexLE l₁ l₂ = true)
    (h₂ : lexLE l₂ l₃ = true) : lexLE l₁ l₃ = true := by
  induction l₁ generalizing l₂ l₃ with
  | nil => rfl
  | cons a as ih =>
    cases l₂ with
    | nil => simp [lexLE] at h₁
    | cons b bs =>
      cases l₃ with
      | nil => simp [lexLE] at h₂
      | cons c cs =>
        simp only [lexLE] at h₁ h₂ ⊢
        rcases lt_trichotomy a b with hab | hab | hab <;>
          rcases lt_trichotomy b c with hbc | hbc | hbc
        · simp [lt_trans hab hbc]
        · subst hbc
          simp [hab]
        · exfalso
          rw [if_neg (lt_asymm hbc), if_pos hbc] at h₂
          exact Bool.noConfusion h₂
        · subst hab
          simp [hbc]
        · subst hab
          subst hbc
          simp only [lt_irrefl, if_neg (lt_irrefl a)] at h₁ h₂ ⊢
          exact ih h₁ h₂
        · subst hab
          exfalso
          rw [if_neg (lt_asymm hbc), if_pos hbc] at h₂
          exact Bool.noConfusion h₂
        · exfalso
          rw [if_neg (lt_asymm hab), if_pos hab] at h₁
          exact Bool.noConfusion h₁
        · exfalso
          rw [if_neg (lt_asymm hab), if_pos hab] at h₁
          exact Bool.noConfusion h₁
        · exfalso
          rw [if_neg (lt_asymm hab), if_pos hab] at h₁
          exact Bool.noConfusion h₁

theorem lexLE_antisymm {l₁ l₂ : List Char} (h₁ : lexLE l₁ l₂ = true)
    (h₂ : lexLE l₂ l₁ = true) : l₁ = l₂ := by
  induction l₁ generalizing l₂ with
  | nil =>
    cases l₂ with
    | nil => rfl
    | cons b bs => simp [lexLE] at h₂
  | cons a as ih =>
    cases l₂ with
    | nil => simp [lexLE] at h₁
    | cons b bs =>
      simp only [lexLE] at h₁ h₂
      rcases lt_trichotomy a b with h | h | h
      · exfalso
        rw [if_neg (lt_asymm h), if_pos h] at h₂
        exact Bool.noConfusion h₂
      · subst h
        rw [if_neg (lt_irrefl a), if_neg (lt_irrefl a)] at h₁ h₂
        rw [ih h₁ h₂]
      · exfalso
        rw [if_neg (lt_asymm h), if_pos h] at h₁
        exact Bool.noConfusion h₁

theorem sLE_refl (a : String) : sLE a a :=
  lexLE_refl _

theorem sLE_total (a b : String) : sLE a b ∨ sLE b a :=
  lexLE_total _ _

theorem sLE_trans {a b c : String} (h₁ : sLE a b) (h₂ : sLE b c) : sLE a c :=
  lexLE_trans h₁ h₂

theorem sLE_antisymm {a b : String} (h₁ : sLE a b) (h₂ : sLE b a) : a = b := by
  cases a with
  | mk la =>
    cases b with
    | mk lb => exact congrArg String.mk (lexLE_antisymm h₁ h₂)

/-! ## Properties of the query functions -/

theorem sorted_sLE_distinctSorted (xs : List String) :
    (distinctSorted xs).Sorted sLE := by
  haveI : IsTotal String sLE := ⟨sLE_total⟩
  haveI : IsTrans String sLE := ⟨fun _ _ _ => sLE_trans⟩
  exact List.sorted_insertionSort _ _

theorem nodup_distinctSorted (xs : List String) : (distinctSorted xs).Nodup :=
  ((List.perm_insertionSort _ _).nodup_iff).mpr xs.nodup_dedup

theorem mem_distinctSorted {a : String} {xs : List String} :
    a ∈ distinctSorted xs ↔ a ∈ xs := by
  rw [distinctSorted, List.mem_insertionSort, List.mem_dedup]

theorem sorted_sLT_distinctSorted (xs : List String) :
    (distinctSorted xs).Sorted sLT := by
  have h₁ := sorted_sLE_distinctSorted xs
  have h₂ := nodup_distinctSorted xs
  exact (h₁.and h₂).imp fun h => ⟨h.1, h.2⟩

theorem mem_chartQuery {db : List Registration} {row : ChartRow} :
    row ∈ chartQuery db ↔ row ∈ chartGroups db :=
  List.mem_insertionSort _

theorem sorted_chartQuery (db : List Registration) :
    (chartQuery db).Sorted monthLE := by
  haveI : IsTotal ChartRow monthLE := ⟨fun a b => sLE_total a.month b.month⟩
  haveI : IsTrans ChartRow monthLE := ⟨fun _ _ _ h₁ h₂ => sLE_trans h₁ h₂⟩
  exact List.sorted_insertionSort _ _

theorem perm_chartQuery (db : List Registration) :
    (chartQuery db).Perm (chartGroups db) :=
  List.perm_insertionSort _ _

theorem exists_source_of_mem_chartGroups {db : List Registration} {row : ChartRow}
    (h : row ∈ chartGroups db) :
    ∃ r ∈ db, chartPred r = true ∧ row.state = normState r ∧ row.brand = normBrand r ∧
      row.month = monthOf r ∧ row.registrations = (chartKeys db).count (chartKey r) ∧
      0 < row.registrations := by
  obtain ⟨k, hk, rfl⟩ := List.mem_map.mp h
  have hk' : k ∈ chartKeys db := List.mem_dedup.mp hk
  obtain ⟨r, hr, rfl⟩ := List.mem_map.mp hk'
  obtain ⟨hrdb, hrpred⟩ := List.mem_filter.mp hr
  refine ⟨r, hrdb, hrpred, rfl, rfl, rfl, rfl, ?_⟩
  exact List.count_pos_iff.mpr hk'

theorem sqlUpper_ne_empty {s : String} (h : s ≠ "") : sqlUpper s ≠ "" := by
  cases s with
  | mk l =>
    cases l with
    | nil => exact absurd rfl h
    | cons c cs =>
      intro hc
      exact List.noConfusion (congrArg String.data hc)

/-! ## The claims -/

/-- Claim C1 counterexample: a registration with a null state and a null
`date_reg` but a qualifying brand and fuel appears in `filters.brands`
although it satisfies no part of the full qualifying predicate, so the
brands list differs from one derived from the full predicate. -/
theorem c1_counterexample :
    brandQuery c1db = ["TESLA"] ∧ c1db.filter chartPred = [] ∧
      brandQuery c1db ≠ distinctSorted ((c1db.filter chartPred).map normBrand) :=
  ⟨by decide, by decide, by decide⟩

/-- Claim C1 (corrected): `filters.brands` is derived from the predicate
restricted to the brand and fuel conditions, and `filters.states` from the
predicate restricted to the state and fuel conditions — not from the full
qualifying predicate of the chart query. -/
theorem c1_filters_use_restricted_predicates (db : List Registration) :
    (∀ b, b ∈ brandQuery db ↔ ∃ r ∈ db, brandPred r = true ∧ normBrand r = b) ∧
    (∀ s, s ∈ stateQuery db ↔ ∃ r ∈ db, statePred r = true ∧ normState r = s) := by
  constructor <;> intro x <;>
    simp [brandQuery, stateQuery, mem_distinctSorted, List.mem_filter, and_assoc]

/-- Claim C2 (confirmed): every chart row arises from a registration passing
the full qualifying predicate; its `state` is the uppercased trim of the
source state, its `brand` the uppercased trim of the source brand, both
non-blank, and its `month` the `YYYY-MM` rendering of the non-null source
date. -/
theorem c2_chart_rows_normalized (db : List Registration) (row : ChartRow)
    (h : row ∈ chartQuery db) :
    ∃ r ∈ db, ∃ s b d, r.state = some s ∧ r.brand = some b ∧ r.date_reg = some d ∧
      row.state = sqlUpper (sqlTrim s) ∧ row.brand = sqlUpper (sqlTrim b) ∧
      row.month = toCharYYYYMM d ∧ row.state ≠ "" ∧ row.brand ≠ "" := by
  obtain ⟨r, hrdb, hpred, hst, hbr, hmo, -, -⟩ :=
    exists_source_of_mem_chartGroups (mem_chartQuery.mp h)
  simp only [chartPred, Bool.and_eq_true] at hpred
  obtain ⟨⟨⟨hsOK, hbOK⟩, hdOK⟩, -⟩ := hpred
  obtain ⟨d, hd⟩ := Option.isSome_iff_exists.mp hdOK
  cases hs : r.state with
  | none => rw [stateOK, hs] at hsOK; exact Bool.noConfusion hsOK
  | some s =>
    cases hb : r.brand with
    | none => rw [brandOK, hb] at hbOK; exact Bool.noConfusion hbOK
    | some b =>
      simp only [stateOK, hs, bne_iff_ne, ne_eq] at hsOK
      simp only [brandOK, hb, bne_iff_ne, ne_eq] at hbOK
      refine ⟨r, hrdb, s, b, d, hs, hb, hd, ?_, ?_, ?_, ?_, ?_⟩
      · rw [hst]
        simp [normState, hs]
      · rw [hbr]
        simp [normBrand, hb]
      · rw [hmo]
        simp [monthOf, hd]
      · rw [hst]
        simpa [normState, hs] using sqlUpper_ne_empty hsOK
      · rw [hbr]
        simpa [normBrand, hb] using sqlUpper_ne_empty hbOK

/-- Witness for C2 at the scenario store and its single chart row. -/
theorem c2_witness :
    (⟨"CA", "TESLA", "2024-03", 2⟩ : ChartRow) ∈ chartQuery c4db ∧
    ∃ r ∈ c4db, ∃ s b d, r.state = some s ∧ r.brand = some b ∧ r.date_reg = some d ∧
      "CA" = sqlUpper (sqlTrim s) ∧ "TESLA" = sqlUpper (sqlTrim b) ∧
      "2024-03" = toCharYYYYMM d ∧ "CA" ≠ "" ∧ "TESLA" ≠ "" :=
  ⟨by decide, c2_chart_rows_normalized c4db ⟨"CA", "TESLA", "2024-03", 2⟩ (by decide)⟩

/-- Claim C3 (confirmed): when any of the five query promises rejects, the
handler answers HTTP 500 with the fixed plain-text message and the body is
never a JSON envelope, whatever the other queries returned. -/
theorem c3_any_failure_yields_500 (req : Request)
    (chartR : Except DbError (List ChartRow))
    (brandR stateR yearR : Except DbError (List String))
    (stationR : Except DbError (List Station))
    (h : (failed chartR || failed brandR || failed stateR || failed yearR ||
      failed stationR) = true) :
    handleApiData req chartR brandR stateR yearR stationR =
        ⟨500, Body.text errorMessage⟩ ∧
      ∀ env : Envelope,
        (handleApiData req chartR brandR stateR yearR stationR).body ≠
          Body.json env := by
  cases chartR <;> cases brandR <;> cases stateR <;> cases yearR <;> cases stationR <;>
    first
      | exact ⟨rfl, fun env h' => Body.noConfusion h'⟩
      | simp [failed] at h

/-- Witness for C3: the chart query rejects, the others resolve. -/
theorem c3_witness :
    (failed (Except.error ⟨"connection refused"⟩ : Except DbError (List ChartRow)) ||
      failed (Except.ok [] : Except DbError (List String)) ||
      failed (Except.ok [] : Except DbError (List String)) ||
      failed (Except.ok [] : Except DbError (List String)) ||
      failed (Except.ok [] : Except DbError (List Station))) = true ∧
    (handleApiData ⟨"/api/data", [], [], ""⟩ (Except.error ⟨"connection refused"⟩)
        (Except.ok []) (Except.ok []) (Except.ok []) (Except.ok []) =
        ⟨500, Body.text errorMessage⟩ ∧
      ∀ env : Envelope,
        (handleApiData ⟨"/api/data", [], [], ""⟩ (Except.error ⟨"connection refused"⟩)
          (Except.ok []) (Except.ok []) (Except.ok []) (Except.ok [])).body ≠
          Body.json env) :=
  ⟨rfl, c3_any_failure_yields_500 ⟨"/api/data", [], [], ""⟩
    (Except.error ⟨"connection refused"⟩) (Except.ok []) (Except.ok [])
    (Except.ok []) (Except.ok []) rfl⟩

/-- Claim C4 (confirmed): on the spec's three-registration scenario store the
success response carries exactly one chart row `(CA, TESLA, 2024-03, 2)`,
`filters.brands = [TESLA]`, `filters.states = [CA]` and
`filters.years = [2024]`, with the diesel registration excluded. -/
theorem c4_scenario (stations : List Station) :
    successResponse ⟨c4db, stations⟩ =
      ⟨200, Body.json ⟨[⟨"CA", "TESLA", "2024-03", 2⟩], stations,
        ⟨["TESLA"], ["CA"], ["2024"]⟩⟩⟩ := by
  have hc : chartQuery c4db = [⟨"CA", "TESLA", "2024-03", 2⟩] := by decide
  have hb : brandQuery c4db = ["TESLA"] := by decide
  have hs : stateQuery c4db = ["CA"] := by decide
  have hy : yearQuery c4db = ["2024"] := by decide
  simp [successResponse, stationQuery, hc, hb, hs, hy]

/-- Claim C5 (confirmed): the states and brands filter lists are strictly
ascending in the text order, hence duplicate-free. -/
theorem c5_filters_strictly_ascending (db : List Registration) :
    (stateQuery db).Sorted sLT ∧ (brandQuery db).Sorted sLT :=
  ⟨sorted_sLT_distinctSorted _, sorted_sLT_distinctSorted _⟩

/-- Claim C6 (confirmed): the years filter list is strictly ascending and
contains exactly the distinct year strings of registrations passing the
`date_reg` and fuel conditions. -/
theorem c6_years_distinct_ascending (db : List Registration) :
    (yearQuery db).Sorted sLT ∧
      (∀ y, y ∈ yearQuery db ↔ ∃ r ∈ db, yearPred r = true ∧ yearOf r = y) := by
  refine ⟨sorted_sLT_distinctSorted _, fun y => ?_⟩
  simp [yearQuery, mem_distinctSorted, List.mem_filter, and_assoc]

/-- Claim C7 (confirmed): registrations whose fuel lies outside the fixed set
never contribute to the chart result — restricting the store to the fuel set
first leaves the chart query result unchanged. -/
theorem c7_fuel_outside_set_never_contributes (db : List Registration) :
    chartQuery (db.filter fun r => fuelOK r.fuel) = chartQuery db := by
  have h : (db.filter fun r => fuelOK r.fuel).filter chartPred =
      db.filter chartPred := by
    rw [List.filter_filter]
    apply List.filter_congr
    intro r _
    unfold chartPred
    cases h' : fuelOK r.fuel <;> simp [h']
  simp [chartQuery, chartGroups, chartKeys, h]

/-- Claim C8 counterexample: two qualifying registrations in the same month
with different states and brands admit two distinct chart-result orderings
both consistent with `ORDER BY month`, so the chart row order is not fully
determined by the specified sort key. -/
theorem c8_counterexample :
    validChartOutput c8db c8outA ∧ validChartOutput c8db c8outB ∧ c8outA ≠ c8outB :=
  ⟨by decide, by decide, by decide⟩

/-- Claim C8 (corrected): with unchanged store contents the three filter
lists are fully determined, and any two chart results agree up to a
permutation of rows sharing a month (each being sorted by month); byte-for-
byte identity of the chart rows is not guaranteed when distinct groups share
a month. -/
theorem c8_determinism_up_to_month_ties (db : List Registration)
    (o₁ o₂ : List ChartRow)
    (h₁ : validChartOutput db o₁) (h₂ : validChartOutput db o₂)
    (b₁ b₂ s₁ s₂ y₁ y₂ : List String)
    (hb₁ : validDistinctOutput ((db.filter brandPred).map normBrand) b₁)
    (hb₂ : validDistinctOutput ((db.filter brandPred).map normBrand) b₂)
    (hs₁ : validDistinctOutput ((db.filter statePred).map normState) s₁)
    (hs₂ : validDistinctOutput ((db.filter statePred).map normState) s₂)
    (hy₁ : validDistinctOutput ((db.filter yearPred).map yearOf) y₁)
    (hy₂ : validDistinctOutput ((db.filter yearPred).map yearOf) y₂) :
    o₁.Perm o₂ ∧ b₁ = b₂ ∧ s₁ = s₂ ∧ y₁ = y₂ := by
  haveI : IsAntisymm String sLE := ⟨fun _ _ => sLE_antisymm⟩
  exact ⟨h₁.1.trans h₂.1.symm,
    List.eq_of_perm_of_sorted (hb₁.1.trans hb₂.1.symm) hb₁.2 hb₂.2,
    List.eq_of_perm_of_sorted (hs₁.1.trans hs₂.1.symm) hs₁.2 hs₂.2,
    List.eq_of_perm_of_sorted (hy₁.1.trans hy₂.1.symm) hy₁.2 hy₂.2⟩

/-- Witness for C8 at the two-registration store, with each query's
deterministic representative as both executions. -/
theorem c8_witness :
    validChartOutput c8db (chartQuery c8db) ∧
    validDistinctOutput ((c8db.filter brandPred).map normBrand) (brandQuery c8db) ∧
    validDistinctOutput ((c8db.filter statePred).map normState) (stateQuery c8db) ∧
    validDistinctOutput ((c8db.filter yearPred).map yearOf) (yearQuery c8db) ∧
    ((chartQuery c8db).Perm (chartQuery c8db) ∧ brandQuery c8db = brandQuery c8db ∧
      stateQuery c8db = stateQuery c8db ∧ yearQuery c8db = yearQuery c8db) :=
  ⟨by decide, by decide, by decide, by decide,
    c8_determinism_up_to_month_ties c8db (chartQuery c8db) (chartQuery c8db)
      (by decide) (by decide)
      (brandQuery c8db) (brandQuery c8db) (stateQuery c8db) (stateQuery c8db)
      (yearQuery c8db) (yearQuery c8db)
      (by decide) (by decide) (by decide) (by decide) (by decide) (by decide)⟩

/-- Claim C9 (confirmed): the handler never reads the incoming request — for
the same settled query outcomes, any two requests get the same response. -/
theorem c9_request_ignored
    (chartR : Except DbError (List ChartRow))
    (brandR stateR yearR : Except DbError (List String))
    (stationR : Except DbError (List Station))
    (req₁ req₂ : Request) :
    handleApiData req₁ chartR brandR stateR yearR stationR =
      handleApiData req₂ chartR brandR stateR yearR stationR :=
  rfl

/-- Claim C10 (confirmed): every chart row counts a non-empty group, so its
registrations count is at least one. -/
theorem c10_counts_positive (db : List Registration) (row : ChartRow)
    (h : row ∈ chartQuery db) : 1 ≤ row.registrations := by
  obtain ⟨-, -, -, -, -, -, -, hpos⟩ :=
    exists_source_of_mem_chartGroups (mem_chartQuery.mp h)
  exact hpos

/-- Witness for C10 at the scenario store. -/
theorem c10_witness :
    (⟨"CA", "TESLA", "2024-03", 2⟩ : ChartRow) ∈ chartQuery c4db ∧ 1 ≤ (2 : Nat) :=
  ⟨by decide, c10_counts_positive c4db ⟨"CA", "TESLA", "2024-03", 2⟩ (by decide)⟩

end EvDashboard
